import Mathlib

/-!
Verification of the PCV (pre-change validation) orchestrator
(`plugins/modules/nd_pcv.py`, function `main`).

The module is embedded shallowly: each remote interaction (initial lookup,
polling re-queries, snapshot resolution, HTTP POST requests, the Input
Normalizer's write-back) is recorded in an ordered call trace, and the
scripted environment `Env` supplies the responses that the external
collaborators (Transport Client, Snapshot Resolver, Input Normalizer,
JSON library, file system) would return.  The orchestrator's own logic is
translated line by line from the source.
-/

namespace NdPcv

/-- A job record as returned by the service.  Only the three attributes the
orchestrator reads are modelled (`jobId`, `analysisStatus`,
`uploadedFileName`); a `none` field is a key absent from the dict
(Python `dict.get` returning `None`). -/
structure Job where
  jobId : Option String
  analysisStatus : Option String
  uploadedFileName : Option String
deriving DecidableEq, Repr

/-- The value held in `nd.existing` / `nd.previous`: the empty dict, a single
job record, or a list of job records (result of `query_pcvs`). -/
inductive Val where
  | empty : Val
  | job : Job → Val
  | list : List Job → Val
deriving DecidableEq, Repr

/-- Python truthiness of the `nd.existing` value: `{}` and `[]` are falsy. -/
def Val.truthy : Val → Bool
  | .empty => false
  | .job _ => true
  | .list js => !js.isEmpty

/-- `nd.existing.get("analysisStatus")`.  The orchestrator only reads it off a
single job record or the empty dict (on the `.list` shape Python would raise;
that shape is unreachable in the states that read it, since those states
require `name`, making the initial lookup a single-job query). -/
def Val.getStatus : Val → Option String
  | .job j => j.analysisStatus
  | _ => none

/-- `nd.existing.get("jobId")`. -/
def Val.getJobId : Val → Option String
  | .job j => j.jobId
  | _ => none

/-- `nd.existing.get("uploadedFileName")`. -/
def Val.getUploadedFileName : Val → Option String
  | .job j => j.uploadedFileName
  | _ => none

/-- A JSON value as far as the orchestrator observes it: the only structural
question the code asks is `isinstance(extract_data, list)`, so values are
abstracted to a top-level tag plus an opaque identifier. -/
inductive JVal where
  | jlist : Nat → JVal
  | jother : Nat → JVal
deriving DecidableEq, Repr

/-- `isinstance(v, list)`. -/
def JVal.isList : JVal → Bool
  | .jlist _ => true
  | .jother _ => false

/-- `os.path.basename` for POSIX paths: the component after the last slash. -/
def basename (p : String) : String :=
  (p.splitOn "/").getLastD p

/-- Python truthiness of an optional string parameter (`None` and `""` are
falsy): returns the string exactly when it is present and non-empty. -/
def truthyStr : Option String → Option String
  | some s => if s.isEmpty then none else some s
  | none => none

def basePath : String := "config/insightsGroup"

/-- Delete endpoint: `config/insightsGroup/{ig}/prechangeAnalysis/jobs`. -/
def rmPath (ig : String) : String :=
  basePath ++ "/" ++ ig ++ "/prechangeAnalysis/jobs"

/-- File submission endpoint:
`config/insightsGroup/{ig}/fabric/{site}/prechangeAnalysis/fileChanges`. -/
def fileChangesPath (ig site : String) : String :=
  basePath ++ "/" ++ ig ++ "/fabric/" ++ site ++ "/prechangeAnalysis/fileChanges"

/-- Manual submission endpoint (with immediate execution):
`config/insightsGroup/{ig}/fabric/{site}/prechangeAnalysis/manualChanges?action=RUN`. -/
def manualChangesPath (ig site : String) : String :=
  basePath ++ "/" ++ ig ++ "/fabric/" ++ site ++ "/prechangeAnalysis/manualChanges?action=RUN"

/-- Body of an `nd.request` POST.  The submission payload's scalar fields
(timestamps, epoch/fabric ids, name, description) are built from the recorded
`getLastEpoch` call's result and are not read back by the orchestrator, so
they are not tracked; what is tracked is whether the body carries the deleted
job ids or the parsed manual change list. -/
inductive ReqBody where
  | jobIds : List String → ReqBody
  | payload : ReqBody
  | payloadWithImdata : JVal → ReqBody
deriving DecidableEq, Repr

/-- One remote interaction, in program order. -/
inductive Call where
  | queryPcvs : String → Call
  | queryPcv : String → String → String → Call
  | getLastEpoch : String → String → Call
  | request : String → Option String → ReqBody → Call
  | createStructuredData : String → Call
deriving DecidableEq, Repr

/-- Is the call a `nd.request` POST (a remote mutating call)? -/
def Call.isRequest : Call → Bool
  | .request _ _ _ => true
  | _ => false

/-- Is the call a single-job query (`ndi.query_pcv`)? -/
def Call.isQueryPcv : Call → Bool
  | .queryPcv _ _ _ => true
  | _ => false

/-- Normalized transport response: application-level success flag plus the
job record under `value.data` (read only when `success` is true). -/
structure Resp where
  success : Bool
  data : Job
deriving DecidableEq, Repr

/-- How one invocation of the module terminates. -/
inductive ExitKind where
  /-- `nd.exit_json()`: successful module exit. -/
  | exited : ExitKind
  /-- `nd.fail_json(msg)`: fatal module failure with a descriptive message. -/
  | failed : String → ExitKind
  /-- An uncaught Python exception (e.g. `json.loads` on invalid input):
  the module crashes with a traceback, not a descriptive failure. -/
  | raised : ExitKind
  /-- The polling script was exhausted while the `wait_and_query` loop would
  still continue: the real module would keep re-querying. -/
  | polling : ExitKind
deriving DecidableEq, Repr

/-- The observable outcome of one invocation: how it exited, the reported
`existing` and `previous` states, and the ordered trace of remote calls. -/
structure Outcome where
  exitKind : ExitKind
  existing : Val
  previous : Val
  calls : List Call
deriving DecidableEq, Repr

/-- Module parameters (after the host framework's argument parsing), plus the
check/dry-run flag. -/
structure Params where
  state : String
  name : Option String
  siteName : Option String
  insightsGroup : String
  file : Option String
  manual : Option String
  checkMode : Bool
deriving Repr

/-- Scripted external world.  Function-valued fields stand for the external
collaborators consumed through narrow interfaces. -/
structure Env where
  /-- Result of `ndi.query_pcvs(ig)` (list query). -/
  queryPcvsRes : List Job
  /-- Result of the initial `ndi.query_pcv(ig, site, name)` (empty when the
  job does not exist). -/
  queryPcvRes : Val
  /-- Scripted results of the successive `ndi.query_pcv` calls made by the
  `wait_and_query` loop: a job record, or an error raised by the query. -/
  polls : List (Except Unit Job)
  /-- `ndi.is_json(bytes)`: the Input Normalizer's validity check. -/
  isJson : String → Bool
  /-- `json.loads`: `none` means the parse raises. -/
  jsonParse : String → Option JVal
  /-- Modelled from the spec: the Input Normalizer's `load`
  (`module_utils/ndi.py`, not in the sources), which converts a non-JSON
  change-description file into a JSON change list. -/
  ndiLoad : String → JVal
  /-- `os.path.exists`. -/
  fileExists : String → Bool
  /-- Content of the file at a path (`open(file).read()`). -/
  fileContent : String → String
  /-- Response to the file-submission POST. -/
  fileResp : Resp
  /-- Response to the manual-submission POST. -/
  manualResp : Resp
  /-- Response to the delete POST. -/
  rmResp : Resp

/-- `ndi.get_last_epoch` (Snapshot Resolver) is recorded as a call; its
returned epoch data only feeds the untracked scalar payload fields, and its
no-snapshot failure is handled inside the external collaborator, so the
model treats it as succeeding. -/
def epochCall (ig site : String) : Call := Call.getLastEpoch ig site

/-- The body of the `wait_and_query` `while` loop (lines 167-175), driven by
the scripted poll results.  Returns the calls made, the final `nd.existing`,
and whether the loop exited (`true`) or the script ran out while the loop
would still continue (`false`).

The source re-checks `status != "COMPLETED"` at the top of each iteration,
but every path that reaches the re-check leaves a non-`COMPLETED` status: a
successful poll with status `COMPLETED` or `FAILED` breaks out before the
re-check, and a raised poll leaves `status` unchanged.  So once entered, the
loop is driven only by the poll results, which is what this function
consumes.  Note the `except` clause resets `nd.existing` to `{}` but does
not break: polling continues. -/
def pollLoop (ig site name : String) :
    List (Except Unit Job) → Val → List Call × Val × Bool
  | [], ex => ([], ex, false)
  | .ok j :: rest, ex =>
    if j.analysisStatus = some "COMPLETED" ∨ j.analysisStatus = some "FAILED" then
      ([Call.queryPcv ig site name], Val.job j, true)
    else
      let r := pollLoop ig site name rest ex
      (Call.queryPcv ig site name :: r.1, r.2)
  | .error _ :: rest, _ =>
    let r := pollLoop ig site name rest Val.empty
    (Call.queryPcv ig site name :: r.1, r.2)

/-- The `wait_and_query` loop including its entry condition: when the status
observed at entry is already `COMPLETED`, the loop is never entered. -/
def waitLoop (ig site name : String) (status : Option String) (ex : Val)
    (polls : List (Except Unit Job)) : List Call × Val × Bool :=
  if status = some "COMPLETED" then ([], ex, true)
  else pollLoop ig site name polls ex

/-- The initial lookup (lines 159-163): list query when `name` is absent,
single-job query when `name` and `site_name` are both present, and no query
at all otherwise (leaving `nd.existing` at its initial empty value). -/
def initialLookup (p : Params) (env : Env) : List Call × Val :=
  match p.name with
  | none => ([Call.queryPcvs p.insightsGroup], Val.list env.queryPcvsRes)
  | some n =>
    match p.siteName with
    | some s => ([Call.queryPcv p.insightsGroup s n], env.queryPcvRes)
    | none => ([], Val.empty)

/-- The `state == "absent"` branch (lines 177-190). -/
def runAbsent (ig name : String) (checkMode : Bool) (env : Env)
    (calls0 : List Call) (ex0 : Val) : Outcome :=
  match ex0.getJobId with
  | some jid =>
    if ex0.truthy then
      if checkMode then
        ⟨.exited, .empty, ex0, calls0⟩
      else
        let c := Call.request (rmPath ig) none (.jobIds [jid])
        if env.rmResp.success then
          ⟨.exited, .empty, ex0, calls0 ++ [c]⟩
        else
          ⟨.failed ("Pre-change validation " ++ name ++ " is not able to be deleted"),
            ex0, ex0, calls0 ++ [c]⟩
    else ⟨.exited, ex0, ex0, calls0⟩
  | none => ⟨.exited, ex0, ex0, calls0⟩

/-- The `state == "present"` branch (lines 192-236): idempotency check
against an existing job, snapshot resolution, then file or manual
submission, or the fatal precondition when neither input is given. -/
def runPresent (ig site name : String) (p : Params) (env : Env)
    (calls0 : List Call) (ex0 : Val) : Outcome :=
  let conflict : Option Outcome :=
    if ex0.truthy then
      match truthyStr p.file, truthyStr ex0.getUploadedFileName with
      | some f, some pfn =>
        if basename f = pfn then
          some ⟨.exited, ex0, ex0, calls0⟩
        else
          some ⟨.failed ("Pre-change validation " ++ name ++
            " already exists with configuration file " ++ pfn), ex0, ex0, calls0⟩
      | _, _ => none
    else none
  match conflict with
  | some o => o
  | none =>
    let calls1 := calls0 ++ [epochCall ig site]
    match truthyStr p.file with
    | some f =>
      if env.fileExists f then
        let content := env.fileContent f
        let extract : Option JVal :=
          if env.isJson content then env.jsonParse content
          else some (env.ndiLoad f)
        match extract with
        | none => ⟨.raised, ex0, ex0, calls1⟩
        | some ed =>
          let normCalls := if ed.isList then [Call.createStructuredData f] else []
          let c := Call.request (fileChangesPath ig site) (some f) .payload
          let calls := calls1 ++ normCalls ++ [c]
          if env.fileResp.success then
            ⟨.exited, .job env.fileResp.data, ex0, calls⟩
          else
            ⟨.exited, ex0, ex0, calls⟩
      else ⟨.failed ("File not found : " ++ f), ex0, ex0, calls1⟩
    | none =>
      match truthyStr p.manual with
      | some m =>
        match env.jsonParse m with
        | none => ⟨.raised, ex0, ex0, calls1⟩
        | some imdata =>
          let c := Call.request (manualChangesPath ig site) none (.payloadWithImdata imdata)
          let calls := calls1 ++ [c]
          if env.manualResp.success then
            ⟨.exited, .job env.manualResp.data, ex0, calls⟩
          else
            ⟨.exited, ex0, ex0, calls⟩
      | none =>
        ⟨.failed "Either file or manual is required to create a PCV job", ex0, ex0, calls1⟩

/-- The whole `main` function: the host framework's `required_if` check
(name and site_name required for absent/present/wait_and_query), the initial
lookup, and the dispatch on the desired state, ending in `nd.exit_json()`
for every branch that does not fail. -/
def runMain (p : Params) (env : Env) : Outcome :=
  if (p.state = "absent" ∨ p.state = "present" ∨ p.state = "wait_and_query") ∧
      (p.name = none ∨ p.siteName = none) then
    ⟨.failed "state requires name and site_name", .empty, .empty, []⟩
  else
    let l := initialLookup p env
    let calls0 := l.1
    let ex0 := l.2
    match p.state, p.name, p.siteName with
    | "wait_and_query", some n, some s =>
      if ex0.truthy then
        let r := waitLoop p.insightsGroup s n ex0.getStatus ex0 env.polls
        ⟨if r.2.2 then .exited else .polling, r.2.1, .empty, calls0 ++ r.1⟩
      else ⟨.exited, ex0, .empty, calls0⟩
    | "absent", some n, some _ => runAbsent p.insightsGroup n p.checkMode env calls0 ex0
    | "present", some n, some s => runPresent p.insightsGroup s n p env calls0 ex0
    | _, _, _ => ⟨.exited, ex0, .empty, calls0⟩

/-- Modelled from the spec: the host contract's boolean changed-flag
(`exit_json` in `module_utils/nd.py`, not in the sources).  For the mutating
states it reports whether the new state differs from the prior state; for
query-like states it is always false. -/
def Outcome.changedFlag (p : Params) (o : Outcome) : Bool :=
  if p.state = "absent" ∨ p.state = "present" then decide (o.existing ≠ o.previous)
  else false

end NdPcv

namespace NdPcv

/-- A job record with status RUNNING. -/
def jRun : Job := ⟨some "id1", some "RUNNING", none⟩

/-- A job record with status COMPLETED. -/
def jDone : Job := ⟨some "id1", some "COMPLETED", none⟩

/-- A job record returned by a successful submission. -/
def jNew : Job := ⟨some "id2", some "RUNNING", none⟩

/-- A benign default scripted world, overridden per scenario. -/
def env0 : Env where
  queryPcvsRes := []
  queryPcvRes := .empty
  polls := []
  isJson := fun _ => true
  jsonParse := fun _ => some (.jother 0)
  ndiLoad := fun _ => .jlist 0
  fileExists := fun _ => true
  fileContent := fun s => s
  fileResp := ⟨true, jNew⟩
  manualResp := ⟨true, jNew⟩
  rmResp := ⟨true, jNew⟩

end NdPcv

namespace NdPcv

/-- C9: with state `query`, `name` supplied and `site_name` absent, no fetch
is performed at all — neither the list query nor the single-job query — and
the reported existing state is the unmodified initial empty state with
changed false. -/
theorem query_name_no_site_no_fetch (ig n : String) (env : Env) :
    let p : Params := ⟨"query", some n, none, ig, none, none, false⟩
    let o := runMain p env
    o.calls = [] ∧ o.existing = Val.empty ∧ o.changedFlag p = false ∧
      o.exitKind = ExitKind.exited := by
  exact ⟨rfl, rfl, rfl, rfl⟩

end NdPcv

namespace NdPcv

/-- C8: Delete (state `absent`) where the initial lookup finds no existing
job, or finds a job record without a `jobId`, is a no-op: it exits
successfully with changed false and issues no remote request. -/
theorem absent_noop (ig n s : String) (cm : Bool) (e : Env) (st ufn : Option String) :
    let p : Params := ⟨"absent", some n, some s, ig, none, none, cm⟩
    let o1 := runMain p { e with queryPcvRes := Val.empty }
    let o2 := runMain p { e with queryPcvRes := Val.job ⟨none, st, ufn⟩ }
    (o1.exitKind = ExitKind.exited ∧ o1.changedFlag p = false ∧
      o1.calls.all (fun c => !c.isRequest) = true) ∧
    (o2.exitKind = ExitKind.exited ∧ o2.changedFlag p = false ∧
      o2.calls.all (fun c => !c.isRequest) = true) := by
  intro p o1 o2
  refine ⟨⟨rfl, rfl, rfl⟩, ⟨rfl, ?_, rfl⟩⟩
  have hx : o2.existing = o2.previous := rfl
  simp [Outcome.changedFlag, hx]

end NdPcv

namespace NdPcv

/-- C7: a `wait_and_query` re-query observing status `COMPLETED` or `FAILED`
is adopted as final and stops the loop (first conjunct); and starting from an
existing job with non-COMPLETED status, the scripted status sequence
[RUNNING, RUNNING, COMPLETED] makes the operation issue exactly 3 re-queries
(after the one initial lookup) and return the COMPLETED record (second
conjunct). -/
theorem wait_terminates_on_terminal (ig s n : String) (e : Env)
    (st : Option String) (ex : Val) (j : Job) (rest : List (Except Unit Job))
    (hst : st ≠ some "COMPLETED")
    (hj : j.analysisStatus = some "COMPLETED" ∨ j.analysisStatus = some "FAILED") :
    (waitLoop ig s n st ex (Except.ok j :: rest) =
      ([Call.queryPcv ig s n], Val.job j, true)) ∧
    (let p : Params := ⟨"wait_and_query", some n, some s, ig, none, none, false⟩
     let env := { e with queryPcvRes := Val.job jRun,
                         polls := [Except.ok jRun, Except.ok jRun, Except.ok jDone] }
     let o := runMain p env
     o.calls = [Call.queryPcv ig s n, Call.queryPcv ig s n, Call.queryPcv ig s n,
        Call.queryPcv ig s n] ∧
       o.existing = Val.job jDone ∧ o.exitKind = ExitKind.exited) := by
  constructor
  · unfold waitLoop pollLoop
    rw [if_neg hst, if_pos hj]
  · exact ⟨rfl, rfl, rfl⟩

/-- Witness for `wait_terminates_on_terminal` at concrete inputs. -/
theorem wait_terminates_on_terminal_witness :
    (waitLoop "ig" "site" "job" (some "RUNNING") Val.empty [Except.ok jDone] =
      ([Call.queryPcv "ig" "site" "job"], Val.job jDone, true)) ∧
    (let p : Params := ⟨"wait_and_query", some "job", some "site", "ig", none, none, false⟩
     let env := { env0 with queryPcvRes := Val.job jRun,
                            polls := [Except.ok jRun, Except.ok jRun, Except.ok jDone] }
     let o := runMain p env
     o.calls = [Call.queryPcv "ig" "site" "job", Call.queryPcv "ig" "site" "job",
        Call.queryPcv "ig" "site" "job", Call.queryPcv "ig" "site" "job"] ∧
       o.existing = Val.job jDone ∧ o.exitKind = ExitKind.exited) :=
  wait_terminates_on_terminal "ig" "site" "job" env0 (some "RUNNING") Val.empty jDone []
    (by decide) (Or.inl (by decide))

end NdPcv

namespace NdPcv

/-- C1 counterexample: with an existing RUNNING job and a re-query script of
[error, COMPLETED], the claim predicts the error on the first re-query resets
the record and exits the loop (so exactly 1 re-query, empty result).  The
code instead keeps polling: it issues 2 re-queries (3 single-job queries
including the initial lookup) and returns the COMPLETED record, which is not
empty. -/
theorem wait_error_claim_counterexample :
    let p : Params := ⟨"wait_and_query", some "job", some "site", "ig", none, none, false⟩
    let env := { env0 with queryPcvRes := Val.job jRun,
                           polls := [Except.error (), Except.ok jDone] }
    let o := runMain p env
    o.calls.length = 3 ∧ o.existing = Val.job jDone ∧ ¬o.existing = Val.empty := by
  decide

/-- Behaviour of the polling loop body on a script of `k` consecutive raised
re-queries: every error is swallowed, one re-query is issued per attempt, the
record ends empty (once at least one error occurred), and the loop never
exits on its own. -/
theorem pollLoop_all_errors (ig s n : String) (k : Nat) (ex : Val) :
    pollLoop ig s n (List.replicate k (Except.error ())) ex =
      (List.replicate k (Call.queryPcv ig s n), if k = 0 then ex else Val.empty, false) := by
  induction k generalizing ex with
  | zero => rfl
  | succ m ih =>
    simp only [List.replicate_succ, pollLoop, ih Val.empty, ite_self]
    simp

/-- C1 amended: if a re-query raises any error, the orchestrator resets the
reported job record to empty and swallows the error, but does not exit the
polling loop — it keeps re-querying.  Under `k ≥ 1` consecutive scripted
errors the operation issues one re-query per error (plus the initial
lookup), the record is empty, and the loop is still running when the script
ends; nothing is raised to the caller. -/
theorem wait_error_swallowed_loop_continues (ig s n : String) (e : Env)
    (k : Nat) (hk : 1 ≤ k) :
    let p : Params := ⟨"wait_and_query", some n, some s, ig, none, none, false⟩
    let env := { e with queryPcvRes := Val.job jRun,
                        polls := List.replicate k (Except.error ()) }
    let o := runMain p env
    o.exitKind = ExitKind.polling ∧ o.existing = Val.empty ∧
      o.calls.length = 1 + k := by
  intro p env o
  have h := pollLoop_all_errors ig s n k (Val.job jRun)
  have hk0 : k ≠ 0 := by omega
  refine ⟨?_, ?_, ?_⟩
  · show (if (pollLoop ig s n (List.replicate k (Except.error ())) (Val.job jRun)).2.2
        then ExitKind.exited else ExitKind.polling) = ExitKind.polling
    rw [h]
    rfl
  · show (pollLoop ig s n (List.replicate k (Except.error ())) (Val.job jRun)).2.1 = Val.empty
    rw [h]
    simp [hk0]
  · show ([Call.queryPcv ig s n] ++
        (pollLoop ig s n (List.replicate k (Except.error ())) (Val.job jRun)).1).length = 1 + k
    rw [h]
    simp [Nat.add_comm]

/-- Witness for `wait_error_swallowed_loop_continues` at `k = 2`. -/
theorem wait_error_swallowed_loop_continues_witness :
    let p : Params := ⟨"wait_and_query", some "job", some "site", "ig", none, none, false⟩
    let env := { env0 with queryPcvRes := Val.job jRun,
                           polls := List.replicate 2 (Except.error ()) }
    let o := runMain p env
    o.exitKind = ExitKind.polling ∧ o.existing = Val.empty ∧ o.calls.length = 1 + 2 :=
  wait_error_swallowed_loop_continues "ig" "site" "job" env0 2 (by decide)

end NdPcv

namespace NdPcv

/-- C2 counterexample: a Create (state `present`) file submission whose
transport response has `success = false` does not fail fatally — the module
falls through to `nd.exit_json()` and exits successfully (the claim says it
must not exit successfully). -/
theorem create_unsuccessful_counterexample :
    let p : Params := ⟨"present", some "job", some "site", "ig", some "cfg.json", none, false⟩
    let env := { env0 with queryPcvRes := Val.empty, fileResp := ⟨false, jNew⟩ }
    let o := runMain p env
    o.exitKind = ExitKind.exited := by
  decide

/-- C2 amended: on an unsuccessful submission response — file-based or
manual — the Create operation exits successfully with the reported result
left at the initial lookup's value (changed false); no fatal error is
raised.  (Only Delete fails fatally on a non-success response.) -/
theorem create_unsuccessful_exits_successfully (ig s n : String) (e : Env) (j : Job) :
    (let pF : Params := ⟨"present", some n, some s, ig, some "cfg.json", none, false⟩
     let envF := { e with queryPcvRes := Val.empty, fileExists := fun _ => true,
                          isJson := fun _ => true,
                          jsonParse := fun _ => some (JVal.jother 0),
                          fileResp := ⟨false, j⟩ }
     let o := runMain pF envF
     o.exitKind = ExitKind.exited ∧ o.existing = Val.empty ∧ o.changedFlag pF = false) ∧
    (let pM : Params := ⟨"present", some n, some s, ig, none, some "changes", false⟩
     let envM := { e with queryPcvRes := Val.empty,
                          jsonParse := fun _ => some (JVal.jother 1),
                          manualResp := ⟨false, j⟩ }
     let o := runMain pM envM
     o.exitKind = ExitKind.exited ∧ o.existing = Val.empty ∧ o.changedFlag pM = false) := by
  exact ⟨⟨rfl, rfl, rfl⟩, ⟨rfl, rfl, rfl⟩⟩

/-- C3: the module declares check-mode support, and Delete honors it, but
the Create branch never consults `module.check_mode`: in check mode a
Create with a file still issues the remote submission POST.  (The last
conjunct shows Delete in the same check mode issues no request.) -/
theorem check_mode_create_still_submits :
    let p : Params := ⟨"present", some "job", some "site", "ig", some "cfg.json", none, true⟩
    let env := { env0 with queryPcvRes := Val.empty }
    let o := runMain p env
    p.checkMode = true ∧
      o.calls = [Call.queryPcv "ig" "site" "job", Call.getLastEpoch "ig" "site",
        Call.request (fileChangesPath "ig" "site") (some "cfg.json") ReqBody.payload] ∧
      (o.calls.any fun c => c.isRequest) = true ∧
      (let pA : Params := ⟨"absent", some "job", some "site", "ig", none, none, true⟩
       let oA := runMain pA { env0 with queryPcvRes := Val.job jRun }
       (oA.calls.any fun c => c.isRequest) = false ∧ oA.existing = Val.empty) := by
  decide

end NdPcv

namespace NdPcv

/-- C5: for Create with an existing job: when a file is requested and the
existing job records an uploaded filename, equality of the file's base name
with the recorded filename exits with no change, inequality fails with a
conflict error naming the existing configuration file; when the existing job
recorded no filename (manual submission) or no file is given, the operation
falls through to resubmission (snapshot resolution and a new submission
request are issued). -/
theorem present_existing_idempotency (ig s n f pfn : String) (jid st : Option String)
    (e : Env) (hf : f.isEmpty = false) (hp : pfn.isEmpty = false) :
    let p : Params := ⟨"present", some n, some s, ig, some f, none, false⟩
    let jex : Job := ⟨jid, st, some pfn⟩
    let env := { e with queryPcvRes := Val.job jex }
    let o := runMain p env
    (basename f = pfn →
      o.exitKind = ExitKind.exited ∧ o.existing = Val.job jex ∧
        o.changedFlag p = false ∧ o.calls = [Call.queryPcv ig s n]) ∧
    (basename f ≠ pfn →
      o.exitKind = ExitKind.failed ("Pre-change validation " ++ n ++
        " already exists with configuration file " ++ pfn)) ∧
    (let jm : Job := ⟨jid, st, none⟩
     let envM := { e with queryPcvRes := Val.job jm, fileExists := fun _ => true,
                          isJson := fun _ => true,
                          jsonParse := fun _ => some (JVal.jother 0) }
     let oM := runMain p envM
     epochCall ig s ∈ oM.calls ∧
       Call.request (fileChangesPath ig s) (some f) ReqBody.payload ∈ oM.calls) ∧
    (let pN : Params := ⟨"present", some n, some s, ig, none, some "chg", false⟩
     let envN := { e with queryPcvRes := Val.job jex,
                          jsonParse := fun _ => some (JVal.jother 0) }
     let oN := runMain pN envN
     epochCall ig s ∈ oN.calls ∧
       Call.request (manualChangesPath ig s) none
         (ReqBody.payloadWithImdata (JVal.jother 0)) ∈ oN.calls) := by
  intro p jex env o
  refine ⟨?_, ?_, ?_, ?_⟩
  · intro heq
    have hmain : o = runPresent ig s n p env [Call.queryPcv ig s n] (Val.job jex) := rfl
    rw [hmain]
    simp [runPresent, truthyStr, Val.getUploadedFileName, Val.truthy, hf, hp, heq,
      Outcome.changedFlag]
  · intro hne
    have hmain : o = runPresent ig s n p env [Call.queryPcv ig s n] (Val.job jex) := rfl
    rw [hmain]
    simp [runPresent, truthyStr, Val.getUploadedFileName, Val.truthy, hf, hp, hne]
  · intro jm envM oM
    have hmain : oM = runPresent ig s n p envM [Call.queryPcv ig s n] (Val.job jm) := rfl
    rw [hmain]
    simp [runPresent, truthyStr, Val.getUploadedFileName, Val.truthy, hf, epochCall]
    refine ⟨?_, ?_⟩ <;> split <;> simp
  · intro pN envN oN
    have hmain : oN = runPresent ig s n pN envN [Call.queryPcv ig s n] (Val.job jex) := rfl
    rw [hmain]
    have hch : "chg".isEmpty = false := rfl
    simp [runPresent, truthyStr, Val.getUploadedFileName, Val.truthy, epochCall, hch]
    refine ⟨?_, ?_⟩ <;> split <;> simp

/-- Witness for `present_existing_idempotency` at concrete inputs. -/
theorem present_existing_idempotency_witness :
    let p : Params := ⟨"present", some "job", some "site", "ig", some "dir/cfg.json", none, false⟩
    let jex : Job := ⟨some "id1", some "COMPLETED", some "cfg.json"⟩
    let env := { env0 with queryPcvRes := Val.job jex }
    let o := runMain p env
    (basename "dir/cfg.json" = "cfg.json" →
      o.exitKind = ExitKind.exited ∧ o.existing = Val.job jex ∧
        o.changedFlag p = false ∧ o.calls = [Call.queryPcv "ig" "site" "job"]) ∧
    (basename "dir/cfg.json" ≠ "cfg.json" →
      o.exitKind = ExitKind.failed ("Pre-change validation " ++ "job" ++
        " already exists with configuration file " ++ "cfg.json")) ∧
    (let jm : Job := ⟨some "id1", some "COMPLETED", none⟩
     let envM := { env0 with queryPcvRes := Val.job jm, fileExists := fun _ => true,
                             isJson := fun _ => true,
                             jsonParse := fun _ => some (JVal.jother 0) }
     let oM := runMain p envM
     epochCall "ig" "site" ∈ oM.calls ∧
       Call.request (fileChangesPath "ig" "site") (some "dir/cfg.json")
         ReqBody.payload ∈ oM.calls) ∧
    (let pN : Params := ⟨"present", some "job", some "site", "ig", none, some "chg", false⟩
     let envN := { env0 with queryPcvRes := Val.job jex,
                             jsonParse := fun _ => some (JVal.jother 0) }
     let oN := runMain pN envN
     epochCall "ig" "site" ∈ oN.calls ∧
       Call.request (manualChangesPath "ig" "site") none
         (ReqBody.payloadWithImdata (JVal.jother 0)) ∈ oN.calls) :=
  present_existing_idempotency "ig" "site" "job" "dir/cfg.json" "cfg.json"
    (some "id1") (some "COMPLETED") env0 (by decide) (by decide)

end NdPcv

namespace NdPcv

/-- C4 counterexample: a Create from a file whose content IS valid JSON (the
validity check returns true) with a top-level list still runs the normalizer
(tree construction and write-back), contradicting "run exactly when the
file's content is not valid JSON". -/
theorem normalizer_valid_json_counterexample :
    let p : Params := ⟨"present", some "job", some "site", "ig", some "cfg.json", none, false⟩
    let env := { env0 with queryPcvRes := Val.empty,
                           jsonParse := fun _ => some (JVal.jlist 0) }
    let o := runMain p env
    env.isJson (env.fileContent "cfg.json") = true ∧
      Call.createStructuredData "cfg.json" ∈ o.calls := by
  decide

/-- C4 amended: for a Create from an existing file, the normalizer (tree
construction plus re-serialization back to the file's own path) runs exactly
when the extracted change data is a top-level JSON list — whether that data
came from the external loader on non-JSON content or from parsing valid JSON
— and when it runs, the write-back precedes the upload request in the call
order (second conjunct gives the whole call trace). -/
theorem normalizer_runs_iff_list (ig s n : String) (e : Env)
    (b : Bool) (pr ld : JVal) :
    let p : Params := ⟨"present", some n, some s, ig, some "cfg.json", none, false⟩
    let env := { e with queryPcvRes := Val.empty, fileExists := fun _ => true,
                        isJson := fun _ => b, jsonParse := fun _ => some pr,
                        ndiLoad := fun _ => ld }
    let ed := if b then pr else ld
    let o := runMain p env
    (Call.createStructuredData "cfg.json" ∈ o.calls ↔ ed.isList = true) ∧
    o.calls = [Call.queryPcv ig s n, Call.getLastEpoch ig s] ++
      (if ed.isList then [Call.createStructuredData "cfg.json"] else []) ++
      [Call.request (fileChangesPath ig s) (some "cfg.json") ReqBody.payload] := by
  intro p env ed o
  have hmain : o = runPresent ig s n p env [Call.queryPcv ig s n] Val.empty := rfl
  rw [hmain]
  have hc : "cfg.json".isEmpty = false := rfl
  cases b <;> cases pr <;> cases ld <;>
    · simp [runPresent, truthyStr, Val.truthy, hc, JVal.isList, epochCall, ed]
      refine ⟨?_, ?_⟩ <;> split <;> simp [epochCall]

/-- C6: Create with neither `file` nor `manual` fails with the precondition
message; Create with both takes the file-submission branch only — the call
trace contains the file-submission POST and no manual-submission POST. -/
theorem present_requires_file_or_manual (ig s n : String) (e : Env) :
    (let p : Params := ⟨"present", some n, some s, ig, none, none, false⟩
     let env := { e with queryPcvRes := Val.empty }
     (runMain p env).exitKind =
       ExitKind.failed "Either file or manual is required to create a PCV job") ∧
    (let p : Params := ⟨"present", some n, some s, ig, some "cfg.json", some "chg", false⟩
     let env := { e with queryPcvRes := Val.empty, fileExists := fun _ => true,
                         isJson := fun _ => true, jsonParse := fun _ => some (JVal.jother 0) }
     let o := runMain p env
     o.calls = [Call.queryPcv ig s n, Call.getLastEpoch ig s,
       Call.request (fileChangesPath ig s) (some "cfg.json") ReqBody.payload]) := by
  constructor
  · exact rfl
  · intro p env o
    have hmain : o = runPresent ig s n p env [Call.queryPcv ig s n] Val.empty := rfl
    rw [hmain]
    have hc : "cfg.json".isEmpty = false := rfl
    simp [runPresent, truthyStr, Val.truthy, hc]
    split <;> simp [epochCall, JVal.isList]

/-- C10: a Create taking the manual branch with a manual string that is not
valid JSON raises the JSON parse error as an uncaught exception (not a
descriptive module failure), and no submission request is issued. -/
theorem manual_invalid_json_raises (ig s n m : String) (e : Env)
    (hm : m.isEmpty = false) (hparse : e.jsonParse m = none) :
    let p : Params := ⟨"present", some n, some s, ig, none, some m, false⟩
    let env := { e with queryPcvRes := Val.empty }
    let o := runMain p env
    o.exitKind = ExitKind.raised ∧ (o.calls.any fun c => c.isRequest) = false := by
  intro p env o
  have hmain : o = runPresent ig s n p env [Call.queryPcv ig s n] Val.empty := rfl
  rw [hmain]
  simp [runPresent, truthyStr, Val.truthy, hm, hparse, epochCall, Call.isRequest]

/-- Witness for `manual_invalid_json_raises` at concrete inputs. -/
theorem manual_invalid_json_raises_witness :
    let p : Params := ⟨"present", some "job", some "site", "ig", none, some "notjson", false⟩
    let env := { { env0 with jsonParse := fun _ => none } with queryPcvRes := Val.empty }
    let o := runMain p env
    o.exitKind = ExitKind.raised ∧ (o.calls.any fun c => c.isRequest) = false :=
  manual_invalid_json_raises "ig" "site" "job" "notjson"
    { env0 with jsonParse := fun _ => none } (by decide) rfl

end NdPcv
